import Mathlib

/-
Verification of the `$pull` array-filtering update operator
(`src/mongo/db/update/pull_node.cpp`).

The document values are modelled by the inductive `BSONValue`; the external
collaborators (the match-expression evaluator behind `CopyableMatchExpression`,
the `compareWithBSONElement` comparison primitive, and `UpdateLeafNode::checkViability`)
are threaded through as explicit function parameters, since their code is not part
of the sources under verification.
-/

set_option autoImplicit false

namespace PullSpec

/-- A collator reference: `nullptr` (no collator) or a reference to some
string-comparison rule set, identified here by an opaque tag. -/
abbrev Collator := Option String

/-- A BSON value, as needed by the pull operator: numbers, strings, regexes,
documents (ordered field lists) and arrays. -/
inductive BSONValue where
  | intVal (n : Int)
  | strVal (s : String)
  | regexVal (pattern : String)
  | objVal (fields : List (String × BSONValue))
  | arrVal (elems : List BSONValue)
  | nullVal

/-- A BSON document: an ordered list of named fields. -/
abbrev BSONObj := List (String × BSONValue)

/-- Translation of `element.getType() == mongo::Object`. -/
def BSONValue.isObjectType : BSONValue → Bool
  | .objVal _ => true
  | _ => false

/-- Translation of `modExpr.type() == mongo::RegEx`. -/
def BSONValue.isRegexType : BSONValue → Bool
  | .regexVal _ => true
  | _ => false

/-- Translation of `element.getType() == mongo::Array`. -/
def BSONValue.isArrayType : BSONValue → Bool
  | .arrVal _ => true
  | _ => false

/-- Translation of `modExpr.embeddedObject()`; only consulted on object-typed values. -/
def BSONValue.embeddedObject : BSONValue → BSONObj
  | .objVal fields => fields
  | _ => []

/-- The direct children of an array element, left to right. -/
def BSONValue.arrayChildren : BSONValue → List BSONValue
  | .arrVal elems => elems
  | _ => []

/-- The field name of `obj.firstElement()`; an empty document's first element
is the end-of-object sentinel, whose field name is empty. -/
def firstFieldName : BSONObj → String
  | [] => ""
  | (name, _) :: _ => name

/-- Modelled from the spec: `BSONElement::getGtLtOp(-1)` (BSON library, not under
`src/`) recognizes the comparison/logical operator keywords and returns the
default `-1` for any other field name. `isOperatorKeyword name` holds exactly
when `getGtLtOp` would return something other than the default. -/
def isOperatorKeyword (name : String) : Bool :=
  name ∈ ["$gt", "$gte", "$lt", "$lte", "$ne", "$in", "$nin", "$mod", "$size",
          "$exists", "$type", "$regex", "$options", "$elemMatch", "$all", "$not"]

/-- The external structural predicate evaluator: given the condition document the
expression was parsed from, the currently bound collator, and a candidate
document, decide the match. This stands for `MatchExpression::matchesBSON`. -/
abbrev MatchEval := BSONObj → Collator → BSONObj → Bool

/-- The external comparison primitive `Element::compareWithBSONElement`
(with `considerFieldName = false`), collator-aware, returning a signed result. -/
abbrev CompareFn := Collator → BSONValue → BSONValue → Int

/-- Modelled from the spec: `CopyableMatchExpression` (not under `src/`) is a
copyable value holding the parsed condition and the currently bound collator;
copies are deep and independent, and `setCollator` rebinds only the copy it is
called on. -/
structure CopyableMatchExpression where
  cond : BSONObj
  collator : Collator

/-- Translation of `CopyableMatchExpression::setCollator`. -/
def CopyableMatchExpression.setCollator
    (e : CopyableMatchExpression) (c : Collator) : CopyableMatchExpression :=
  { e with collator := c }

/-- Translation of `matchesBSON`, relative to the external evaluator. -/
def CopyableMatchExpression.matchesBSON
    (ev : MatchEval) (e : CopyableMatchExpression) (candidate : BSONObj) : Bool :=
  ev e.cond e.collator candidate

/-- The closed matcher hierarchy `PullNode::ElementMatcher` with its three
variants `ObjectMatcher`, `WrappedObjectMatcher` and `EqualityMatcher`. -/
inductive ElementMatcher where
  | objectMatcher (expr : CopyableMatchExpression)
  | wrappedObjectMatcher (expr : CopyableMatchExpression)
  | equalityMatcher (modExpr : BSONValue) (collator : Collator)

/-- Which of the three variants a matcher is. -/
inductive MatcherKind where
  | object
  | wrapped
  | equality
deriving DecidableEq

/-- The variant tag of a matcher. -/
def ElementMatcher.kind : ElementMatcher → MatcherKind
  | .objectMatcher _ => .object
  | .wrappedObjectMatcher _ => .wrapped
  | .equalityMatcher _ _ => .equality

/-- Translation of the three `match` overrides:
`ObjectMatcher::match` tests document candidates against the structural
predicate and rejects every non-document;
`WrappedObjectMatcher::match` wraps the candidate value in a single-field
document with empty field name (`element.getValue().wrap("")`) and evaluates
the (equally wrapped) predicate;
`EqualityMatcher::match` compares with `compareWithBSONElement` under the
bound collator and matches on result `0`. -/
def ElementMatcher.matchElem (ev : MatchEval) (cmp : CompareFn) :
    ElementMatcher → BSONValue → Bool
  | .objectMatcher expr, candidate =>
      match candidate with
      | .objVal fields => expr.matchesBSON ev fields
      | _ => false
  | .wrappedObjectMatcher expr, candidate =>
      expr.matchesBSON ev [("", candidate)]
  | .equalityMatcher modExpr collator, candidate =>
      cmp collator candidate modExpr == 0

/-- Translation of the `clone` overrides: each variant returns an independent
copy of its whole state (`make_unique<...>(*this)`). -/
def ElementMatcher.clone : ElementMatcher → ElementMatcher
  | .objectMatcher expr => .objectMatcher expr
  | .wrappedObjectMatcher expr => .wrappedObjectMatcher expr
  | .equalityMatcher modExpr collator => .equalityMatcher modExpr collator

/-- Translation of the `setCollator` overrides: rebind only the collator. -/
def ElementMatcher.setCollator : ElementMatcher → Collator → ElementMatcher
  | .objectMatcher expr, c => .objectMatcher (expr.setCollator c)
  | .wrappedObjectMatcher expr, c => .wrappedObjectMatcher (expr.setCollator c)
  | .equalityMatcher modExpr _, c => .equalityMatcher modExpr c

/-- The collator currently bound in a matcher. -/
def ElementMatcher.collatorOf : ElementMatcher → Collator
  | .objectMatcher expr => expr.collator
  | .wrappedObjectMatcher expr => expr.collator
  | .equalityMatcher _ collator => collator

/-- The predicate state of a matcher, apart from the collator binding: the
parsed condition document for the expression-backed variants, the literal
value for the equality variant. -/
def ElementMatcher.predicateStateOf : ElementMatcher → BSONObj ⊕ BSONValue
  | .objectMatcher expr => Sum.inl expr.cond
  | .wrappedObjectMatcher expr => Sum.inl expr.cond
  | .equalityMatcher modExpr _ => Sum.inr modExpr

/-- Translation of `PullNode::init`: classification of the removal condition.
An object condition whose first field name is not an operator keyword yields an
`ObjectMatcher` over the embedded object; any other object condition, and any
regex condition, yields a `WrappedObjectMatcher` over the empty-name wrap of
the condition; every remaining value yields an `EqualityMatcher`. -/
def PullNode.init (modExpr : BSONValue) (collator : Collator) : ElementMatcher :=
  if modExpr.isObjectType &&
      !(isOperatorKeyword (firstFieldName modExpr.embeddedObject)) then
    .objectMatcher ⟨modExpr.embeddedObject, collator⟩
  else if modExpr.isObjectType || modExpr.isRegexType then
    .wrappedObjectMatcher ⟨[("", modExpr)], collator⟩
  else
    .equalityMatcher modExpr collator

/-- Translation of the removal loop: walk the children left to right, capture
the next sibling before testing, remove the current child on a match and count
it, keep it otherwise. Returns the surviving children in order and the removal
count. -/
def pullChildren (p : BSONValue → Bool) : List BSONValue → List BSONValue × Nat
  | [] => ([], 0)
  | c :: rest =>
      let r := pullChildren p rest
      if p c then (r.1, r.2 + 1) else (c :: r.1, r.2)

/-- An entry appended through `LogBuilder::addToSets`: set `path` to the array
whose slots are the given (empty-field-name, value) pairs. -/
inductive LogEntry where
  | setTo (path : String) (slots : List (String × BSONValue))

/-- Translation of `FieldRef::dottedField`. -/
def dottedField (path : List String) : String :=
  String.intercalate "." path

/-- The errors `apply` can raise; each carries the target element as it stands
when the error is raised, so that mutation-freedom of the error paths is part
of the statement. `viabilityError` is the fatal error propagating out of
`UpdateLeafNode::checkViability`; `nonArrayError` is the
`uassert(ErrorCodes::BadValue, ...)` validation failure. -/
inductive ApplyError where
  | viabilityError (element : BSONValue)
  | nonArrayError (msg : String) (element : BSONValue)

/-- The outputs of one `apply` call: the target element after the call, the two
result booleans, and the log builder state after the call (`none` when no log
builder was supplied). -/
structure ApplyOutcome where
  element : BSONValue
  indexesAffected : Bool
  noop : Bool
  logEntries : Option (List LogEntry)

/-- Translation of `PullNode::apply`. The external collaborators are explicit
parameters: `ev`/`cmp` back the matcher, `checkViable` is
`UpdateLeafNode::checkViability` (true means viable, false means the fatal
error it raises), `indexData` is the optional index-impact oracle, `logBuilder`
the optional log builder state. `matchedField`, `fromReplication`,
`validateForStorage` and `immutablePaths` are accepted as in the source
signature. -/
def PullNode.apply (ev : MatchEval) (cmp : CompareFn)
    (checkViable : BSONValue → List String → List String → Bool)
    (matcher : ElementMatcher)
    (element : BSONValue)
    (pathToCreate pathTaken : List String)
    (matchedField : String)
    (fromReplication : Bool)
    (validateForStorage : Bool)
    (immutablePaths : List (List String))
    (indexData : Option (String → Bool))
    (logBuilder : Option (List LogEntry)) :
    Except ApplyError ApplyOutcome :=
  if !pathToCreate.isEmpty then
    if checkViable element pathToCreate pathTaken then
      Except.ok ⟨element, false, true, logBuilder⟩
    else
      Except.error (ApplyError.viabilityError element)
  else if !element.isArrayType then
    Except.error
      (ApplyError.nonArrayError "Cannot apply $pull to a non-array value" element)
  else
    let removed :=
      pullChildren (fun c => matcher.matchElem ev cmp c) element.arrayChildren
    if removed.2 = 0 then
      Except.ok ⟨element, false, true, logBuilder⟩
    else
      Except.ok
        ⟨BSONValue.arrVal removed.1,
          (match indexData with
           | some mightBeIndexed => mightBeIndexed (dottedField pathTaken)
           | none => false),
          false,
          (match logBuilder with
           | some entries =>
               some (entries ++
                 [LogEntry.setTo (dottedField pathTaken)
                   (removed.1.map (fun v => (("" : String), v)))])
           | none => none)⟩

/-! Basic lemmas about the removal loop. -/

/-- The surviving children are exactly the children failing the predicate,
in their original order. -/
theorem pullChildren_fst (p : BSONValue → Bool) (l : List BSONValue) :
    (pullChildren p l).1 = l.filter (fun c => !p c) := by
  induction l with
  | nil => rfl
  | cons c rest ih =>
      simp only [pullChildren, List.filter]
      cases h : p c <;> simp [h, ih]

/-- The removal count is the number of children satisfying the predicate. -/
theorem pullChildren_snd (p : BSONValue → Bool) (l : List BSONValue) :
    (pullChildren p l).2 = l.countP (fun c => p c) := by
  induction l with
  | nil => rfl
  | cons c rest ih =>
      simp only [pullChildren, List.countP_cons]
      cases h : p c <;> simp [h, ih]

/-- Characterization of `apply` on an array target reached in full
(`pathToCreate` empty): either nothing matches and the call is a no-op, or the
array is replaced by its non-matching children, the index oracle is consulted,
and a full-array replacement entry is appended to the log builder. -/
theorem apply_array_eq (ev : MatchEval) (cmp : CompareFn)
    (checkViable : BSONValue → List String → List String → Bool)
    (m : ElementMatcher) (l : List BSONValue) (pathTaken : List String)
    (matchedField : String) (fromReplication validateForStorage : Bool)
    (immutablePaths : List (List String))
    (indexData : Option (String → Bool)) (logBuilder : Option (List LogEntry)) :
    PullNode.apply ev cmp checkViable m (.arrVal l) [] pathTaken matchedField
        fromReplication validateForStorage immutablePaths indexData logBuilder =
      (if l.countP (fun c => m.matchElem ev cmp c) = 0 then
        Except.ok ⟨.arrVal l, false, true, logBuilder⟩
      else
        Except.ok
          ⟨.arrVal (l.filter (fun c => !(m.matchElem ev cmp c))),
            (match indexData with
             | some mightBeIndexed => mightBeIndexed (dottedField pathTaken)
             | none => false),
            false,
            (match logBuilder with
             | some entries =>
                 some (entries ++
                   [LogEntry.setTo (dottedField pathTaken)
                     ((l.filter (fun c => !(m.matchElem ev cmp c))).map
                       (fun v => (("" : String), v)))])
             | none => none)⟩) := by
  simp only [PullNode.apply, List.isEmpty, Bool.not_false, BSONValue.isArrayType,
    Bool.not_true, Bool.false_eq_true, if_false, BSONValue.arrayChildren]
  rw [pullChildren_snd, pullChildren_fst]

/-- On an array target reached in full, apply always succeeds and the surviving
array keeps exactly the children the matcher rejects, in order. Shared support
lemma for the filtering claims. -/
theorem apply_array_filter (ev : MatchEval) (cmp : CompareFn)
    (checkViable : BSONValue → List String → List String → Bool)
    (m : ElementMatcher) (l : List BSONValue) (pathTaken : List String)
    (matchedField : String) (fromReplication validateForStorage : Bool)
    (immutablePaths : List (List String))
    (indexData : Option (String → Bool)) (logBuilder : Option (List LogEntry)) :
    ∃ out, PullNode.apply ev cmp checkViable m (.arrVal l) [] pathTaken
        matchedField fromReplication validateForStorage immutablePaths indexData
        logBuilder = Except.ok out
      ∧ out.element = .arrVal (l.filter (fun e => !(m.matchElem ev cmp e))) := by
  rw [apply_array_eq]
  by_cases h : l.countP (fun c => m.matchElem ev cmp c) = 0
  · have hall : ∀ a ∈ l, (!(m.matchElem ev cmp a)) = true := by
      intro a ha
      have hna := List.countP_eq_zero.mp h a ha
      simp only [Bool.not_eq_true] at hna
      simp [hna]
    rw [if_pos h]
    exact ⟨_, rfl, by rw [List.filter_eq_self.mpr hall]⟩
  · rw [if_neg h]
    exact ⟨_, rfl, rfl⟩

/-- C1: after a successful apply call with `pathToCreate` empty on an array
target, the target array contains exactly those elements of the original array
for which the matcher predicate does not hold, in their original relative
order. -/
theorem pull_c1_filter (ev : MatchEval) (cmp : CompareFn)
    (checkViable : BSONValue → List String → List String → Bool)
    (m : ElementMatcher) (l : List BSONValue) (pathTaken : List String)
    (matchedField : String) (fromReplication validateForStorage : Bool)
    (immutablePaths : List (List String))
    (indexData : Option (String → Bool)) (logBuilder : Option (List LogEntry)) :
    ∃ out, PullNode.apply ev cmp checkViable m (.arrVal l) [] pathTaken
        matchedField fromReplication validateForStorage immutablePaths indexData
        logBuilder = Except.ok out
      ∧ out.element = .arrVal (l.filter (fun e => !(m.matchElem ev cmp e))) :=
  apply_array_filter ev cmp checkViable m l pathTaken matchedField
    fromReplication validateForStorage immutablePaths indexData logBuilder

/-- C2: when no element of the target array satisfies the matcher predicate,
apply reports `noop = true`, leaves the array unchanged, and leaves the log
builder state untouched whether or not one was supplied. -/
theorem pull_c2_noop (ev : MatchEval) (cmp : CompareFn)
    (checkViable : BSONValue → List String → List String → Bool)
    (m : ElementMatcher) (l : List BSONValue) (pathTaken : List String)
    (matchedField : String) (fromReplication validateForStorage : Bool)
    (immutablePaths : List (List String))
    (indexData : Option (String → Bool)) (logBuilder : Option (List LogEntry))
    (h : ∀ e ∈ l, m.matchElem ev cmp e = false) :
    PullNode.apply ev cmp checkViable m (.arrVal l) [] pathTaken matchedField
        fromReplication validateForStorage immutablePaths indexData logBuilder
      = Except.ok ⟨.arrVal l, false, true, logBuilder⟩ := by
  rw [apply_array_eq, if_pos]
  exact List.countP_eq_zero.mpr (fun a ha => by simp [h a ha])

/-- Witness for C2 at a concrete input: pulling `3` (under a comparison
primitive that never reports equality) from `[1, 2]` is a no-op and the
supplied log builder stays empty. -/
theorem pull_c2_noop_witness :
    PullNode.apply (fun _ _ _ => false) (fun _ _ _ => 1) (fun _ _ _ => true)
        (.equalityMatcher (.intVal 3) none)
        (.arrVal [.intVal 1, .intVal 2]) [] ["a"] "" false false [] none (some [])
      = Except.ok ⟨.arrVal [.intVal 1, .intVal 2], false, true, some []⟩ :=
  pull_c2_noop _ _ _ _ _ _ _ _ _ _ _ _ (by decide)

/-- C4: with `pathToCreate` empty and a non-array target element, apply fails
with the "cannot apply to a non-array value" validation error, and the target
element carried in the error is the unmutated input. -/
theorem pull_c4_nonarray (ev : MatchEval) (cmp : CompareFn)
    (checkViable : BSONValue → List String → List String → Bool)
    (m : ElementMatcher) (element : BSONValue) (pathTaken : List String)
    (matchedField : String) (fromReplication validateForStorage : Bool)
    (immutablePaths : List (List String))
    (indexData : Option (String → Bool)) (logBuilder : Option (List LogEntry))
    (h : element.isArrayType = false) :
    PullNode.apply ev cmp checkViable m element [] pathTaken matchedField
        fromReplication validateForStorage immutablePaths indexData logBuilder
      = Except.error
          (ApplyError.nonArrayError "Cannot apply $pull to a non-array value"
            element) := by
  simp [PullNode.apply, h]

/-- Witness for C4 at a concrete input: applying to the scalar `5` fails with
the validation error and the element is returned unchanged inside it. -/
theorem pull_c4_nonarray_witness :
    PullNode.apply (fun _ _ _ => false) (fun _ _ _ => 1) (fun _ _ _ => true)
        (.equalityMatcher (.intVal 3) none)
        (.intVal 5) [] ["a"] "" false false [] none none
      = Except.error
          (ApplyError.nonArrayError "Cannot apply $pull to a non-array value"
            (.intVal 5)) :=
  pull_c4_nonarray _ _ _ _ _ _ _ _ _ _ _ _ rfl

/-- C5: with `pathToCreate` non-empty, apply never mutates the document: when
the viability check succeeds it reports `noop = true` with the element and log
state unchanged, and when the check fails it raises the fatal viability error,
again with the element unchanged. -/
theorem pull_c5_path_to_create (ev : MatchEval) (cmp : CompareFn)
    (checkViable : BSONValue → List String → List String → Bool)
    (m : ElementMatcher) (element : BSONValue)
    (pathToCreate pathTaken : List String)
    (matchedField : String) (fromReplication validateForStorage : Bool)
    (immutablePaths : List (List String))
    (indexData : Option (String → Bool)) (logBuilder : Option (List LogEntry))
    (h : pathToCreate ≠ []) :
    (checkViable element pathToCreate pathTaken = true →
       PullNode.apply ev cmp checkViable m element pathToCreate pathTaken
           matchedField fromReplication validateForStorage immutablePaths
           indexData logBuilder
         = Except.ok ⟨element, false, true, logBuilder⟩)
  ∧ (checkViable element pathToCreate pathTaken = false →
       PullNode.apply ev cmp checkViable m element pathToCreate pathTaken
           matchedField fromReplication validateForStorage immutablePaths
           indexData logBuilder
         = Except.error (ApplyError.viabilityError element)) := by
  cases pathToCreate with
  | nil => exact absurd rfl h
  | cons a as =>
      constructor <;> intro hcv <;> simp [PullNode.apply, hcv]

/-- Witness for C5 at a concrete input: a non-empty `pathToCreate` with a
viability checker that accepts yields a no-op with the document untouched. -/
theorem pull_c5_path_to_create_witness :
    PullNode.apply (fun _ _ _ => false) (fun _ _ _ => 1) (fun _ _ _ => true)
        (.equalityMatcher (.intVal 3) none)
        (.intVal 7) ["x"] ["a"] "" false false [] none none
      = Except.ok ⟨.intVal 7, false, true, none⟩ :=
  (pull_c5_path_to_create (fun _ _ _ => false) (fun _ _ _ => 1)
    (fun _ _ _ => true) (.equalityMatcher (.intVal 3) none) (.intVal 7)
    ["x"] ["a"] "" false false [] none none (List.cons_ne_nil "x" [])).1 rfl

/-- C9: two apply calls that agree on all inputs except `matchedField`,
`fromReplication`, and `validateForStorage` produce identical results —
document, noop and indexesAffected outputs, and log state: these three inputs
are accepted but never consulted. -/
theorem pull_c9_unused_inputs (ev : MatchEval) (cmp : CompareFn)
    (checkViable : BSONValue → List String → List String → Bool)
    (m : ElementMatcher) (element : BSONValue)
    (pathToCreate pathTaken : List String)
    (matchedField₁ matchedField₂ : String)
    (fromReplication₁ fromReplication₂ : Bool)
    (validateForStorage₁ validateForStorage₂ : Bool)
    (immutablePaths : List (List String))
    (indexData : Option (String → Bool)) (logBuilder : Option (List LogEntry)) :
    PullNode.apply ev cmp checkViable m element pathToCreate pathTaken
        matchedField₁ fromReplication₁ validateForStorage₁ immutablePaths
        indexData logBuilder
      = PullNode.apply ev cmp checkViable m element pathToCreate pathTaken
          matchedField₂ fromReplication₂ validateForStorage₂ immutablePaths
          indexData logBuilder := rfl

/-- C3: matcher classification at init follows the priority rule: a
document-typed condition whose first field name is not an operator keyword
yields the `ObjectMatcher`; any other document-typed condition, and any regex
condition, yields the `WrappedObjectMatcher`; every remaining value yields the
`EqualityMatcher`. As `PullNode.init` is a total function, exactly one variant
is chosen for every condition value. -/
theorem pull_c3_classification (v : BSONValue) (c : Collator) :
    ((∃ fs, v = .objVal fs ∧ isOperatorKeyword (firstFieldName fs) = false) →
        PullNode.init v c = .objectMatcher ⟨v.embeddedObject, c⟩)
  ∧ (((∃ fs, v = .objVal fs ∧ isOperatorKeyword (firstFieldName fs) = true) ∨
        (∃ p, v = .regexVal p)) →
        PullNode.init v c = .wrappedObjectMatcher ⟨[("", v)], c⟩)
  ∧ ((∀ fs, v ≠ .objVal fs) → (∀ p, v ≠ .regexVal p) →
        PullNode.init v c = .equalityMatcher v c) := by
  refine ⟨?_, ?_, ?_⟩
  · rintro ⟨fs, rfl, hop⟩
    simp [PullNode.init, BSONValue.isObjectType, BSONValue.embeddedObject, hop]
  · rintro (⟨fs, rfl, hop⟩ | ⟨p, rfl⟩)
    · simp [PullNode.init, BSONValue.isObjectType, BSONValue.embeddedObject, hop]
    · simp [PullNode.init, BSONValue.isObjectType, BSONValue.isRegexType]
  · intro hobj hreg
    cases v with
    | objVal fs => exact absurd rfl (hobj fs)
    | regexVal p => exact absurd rfl (hreg p)
    | intVal n => rfl
    | strVal s => rfl
    | arrVal elems => rfl
    | nullVal => rfl

/-- Witness for C3 at a concrete input: the condition `{a: 1}` has a plain
first field and is classified as an `ObjectMatcher` over that document. -/
theorem pull_c3_classification_witness :
    PullNode.init (.objVal [("a", .intVal 1)]) none
      = .objectMatcher ⟨[("a", .intVal 1)], none⟩ :=
  (pull_c3_classification (.objVal [("a", .intVal 1)]) none).1
    ⟨[("a", .intVal 1)], rfl, by decide⟩

/-- C6: when at least one element was removed and a log builder was supplied,
the call succeeds with `noop = false` and appends exactly one entry to the log:
a set of the dotted path taken to the array of surviving children in their
current order, each copied into a slot with an empty field name. -/
theorem pull_c6_log (ev : MatchEval) (cmp : CompareFn)
    (checkViable : BSONValue → List String → List String → Bool)
    (m : ElementMatcher) (l : List BSONValue) (pathTaken : List String)
    (matchedField : String) (fromReplication validateForStorage : Bool)
    (immutablePaths : List (List String))
    (indexData : Option (String → Bool)) (entries : List LogEntry)
    (h : (l.any fun e => m.matchElem ev cmp e) = true) :
    ∃ out, PullNode.apply ev cmp checkViable m (.arrVal l) [] pathTaken
        matchedField fromReplication validateForStorage immutablePaths indexData
        (some entries) = Except.ok out
      ∧ out.noop = false
      ∧ out.logEntries = some (entries ++
          [LogEntry.setTo (dottedField pathTaken)
            ((l.filter (fun e => !(m.matchElem ev cmp e))).map
              (fun v => (("" : String), v)))]) := by
  rw [apply_array_eq, if_neg]
  · exact ⟨_, rfl, rfl, rfl⟩
  · intro h0
    obtain ⟨a, ha, hpa⟩ := List.any_eq_true.mp h
    exact List.countP_eq_zero.mp h0 a ha hpa

/-- Witness for C6 at a concrete input: pulling from `[1]` with a comparison
primitive that always reports equality removes the element and logs a
replacement of the path by the now-empty array. -/
theorem pull_c6_log_witness :
    ∃ out, PullNode.apply (fun _ _ _ => false) (fun _ _ _ => 0)
        (fun _ _ _ => true) (.equalityMatcher (.intVal 3) none)
        (.arrVal [.intVal 1]) [] ["a"] "" false false [] none (some [])
        = Except.ok out
      ∧ out.noop = false
      ∧ out.logEntries = some ([] ++ [LogEntry.setTo (dottedField ["a"]) []]) :=
  pull_c6_log (fun _ _ _ => false) (fun _ _ _ => 0) (fun _ _ _ => true)
    (.equalityMatcher (.intVal 3) none) [.intVal 1] ["a"] "" false false [] none
    [] rfl

/-- C7: `indexesAffected` is true exactly when at least one element was removed,
an index-impact oracle was supplied, and the oracle answers true on the dotted
path taken (so with no oracle it is always false); and no successful call ever
reports both `noop` and `indexesAffected`. -/
theorem pull_c7_indexes (ev : MatchEval) (cmp : CompareFn)
    (checkViable : BSONValue → List String → List String → Bool)
    (m : ElementMatcher) (pathTaken : List String)
    (matchedField : String) (fromReplication validateForStorage : Bool)
    (immutablePaths : List (List String))
    (indexData : Option (String → Bool)) (logBuilder : Option (List LogEntry)) :
    (∀ (l : List BSONValue) (out : ApplyOutcome),
        PullNode.apply ev cmp checkViable m (.arrVal l) [] pathTaken
            matchedField fromReplication validateForStorage immutablePaths
            indexData logBuilder = Except.ok out →
        out.indexesAffected =
          ((l.any fun e => m.matchElem ev cmp e) &&
            (match indexData with
             | some mightBeIndexed => mightBeIndexed (dottedField pathTaken)
             | none => false)))
  ∧ (∀ (element : BSONValue) (pathToCreate : List String) (out : ApplyOutcome),
        PullNode.apply ev cmp checkViable m element pathToCreate pathTaken
            matchedField fromReplication validateForStorage immutablePaths
            indexData logBuilder = Except.ok out →
        out.noop = true → out.indexesAffected = false) := by
  constructor
  · intro l out hap
    rw [apply_array_eq] at hap
    by_cases h0 : l.countP (fun c => m.matchElem ev cmp c) = 0
    · rw [if_pos h0] at hap
      cases hap
      have hany : (l.any fun e => m.matchElem ev cmp e) = false := by
        simp only [List.any_eq_false]
        intro a ha
        simp [List.countP_eq_zero.mp h0 a ha]
      simp [hany]
    · rw [if_neg h0] at hap
      cases hap
      have hany : (l.any fun e => m.matchElem ev cmp e) = true := by
        rw [List.any_eq_true]
        exact List.countP_pos_iff.mp (Nat.pos_of_ne_zero h0)
      simp [hany]
  · intro element pathToCreate out hap hnoop
    simp only [PullNode.apply] at hap
    split at hap
    · split at hap
      · cases hap
        rfl
      · cases hap
    · split at hap
      · cases hap
      · split at hap
        · cases hap
          rfl
        · cases hap
          simp at hnoop

/-- Witness for C7 at a concrete input: removing the only element of `[1]` with
an oracle that always answers true reports `indexesAffected = true`, matching
the oracle conjunction. -/
theorem pull_c7_indexes_witness :
    (⟨BSONValue.arrVal [], true, false, none⟩ : ApplyOutcome).indexesAffected
      = (([BSONValue.intVal 1].any fun e =>
            ElementMatcher.matchElem (fun _ _ _ => false) (fun _ _ _ => 0)
              (.equalityMatcher (.intVal 3) none) e) &&
          (match (some (fun _ => true) : Option (String → Bool)) with
           | some mightBeIndexed => mightBeIndexed (dottedField ["a"])
           | none => false)) :=
  (pull_c7_indexes (fun _ _ _ => false) (fun _ _ _ => 0) (fun _ _ _ => true)
    (.equalityMatcher (.intVal 3) none) ["a"] "" false false []
    (some (fun _ => true)) none).1 [.intVal 1]
    ⟨BSONValue.arrVal [], true, false, none⟩ rfl

/-- C8: a clone returns the same match result as the original on every
candidate, and rebinding the collator on the clone changes only the clone's
collator binding: its variant and predicate state stay those of the original,
its collator becomes the new one, and — the matchers being independent values
in this embedding, as the source's deep copies are — the original is untouched,
so matching through the rebound clone agrees with rebinding the original
directly. -/
theorem pull_c8_clone (ev : MatchEval) (cmp : CompareFn) (m : ElementMatcher)
    (candidate : BSONValue) (c : Collator) :
    (m.clone.matchElem ev cmp candidate = m.matchElem ev cmp candidate)
  ∧ ((m.clone.setCollator c).matchElem ev cmp candidate
      = (m.setCollator c).matchElem ev cmp candidate)
  ∧ ((m.clone.setCollator c).kind = m.kind)
  ∧ ((m.clone.setCollator c).predicateStateOf = m.predicateStateOf)
  ∧ ((m.clone.setCollator c).collatorOf = c) := by
  cases m <;>
    simp [ElementMatcher.clone, ElementMatcher.setCollator,
      ElementMatcher.matchElem, ElementMatcher.kind,
      ElementMatcher.predicateStateOf, ElementMatcher.collatorOf,
      CopyableMatchExpression.setCollator]

/-- C10: the empty-document condition is classified as an `ObjectMatcher`
(the empty document's first field name is not an operator keyword), and —
the structural evaluator matching every document against the empty condition —
a subsequent apply removes exactly the document-typed elements of the target
array and keeps every non-document element. -/
theorem pull_c10_empty_object (ev : MatchEval) (cmp : CompareFn)
    (checkViable : BSONValue → List String → List String → Bool)
    (col : Collator) (l : List BSONValue) (pathTaken : List String)
    (matchedField : String) (fromReplication validateForStorage : Bool)
    (immutablePaths : List (List String))
    (indexData : Option (String → Bool)) (logBuilder : Option (List LogEntry))
    (hev : ∀ c obj, ev [] c obj = true) :
    PullNode.init (.objVal []) col = .objectMatcher ⟨[], col⟩
  ∧ ∃ out, PullNode.apply ev cmp checkViable (PullNode.init (.objVal []) col)
        (.arrVal l) [] pathTaken matchedField fromReplication
        validateForStorage immutablePaths indexData logBuilder = Except.ok out
      ∧ out.element = .arrVal (l.filter (fun e => !(e.isObjectType))) := by
  have hinit : PullNode.init (.objVal []) col = .objectMatcher ⟨[], col⟩ := by
    simp [PullNode.init, BSONValue.isObjectType, BSONValue.embeddedObject,
      firstFieldName, isOperatorKeyword]
  refine ⟨hinit, ?_⟩
  have hmatch : ∀ e : BSONValue,
      (PullNode.init (.objVal []) col).matchElem ev cmp e = e.isObjectType := by
    intro e
    rw [hinit]
    cases e <;>
      simp [ElementMatcher.matchElem, CopyableMatchExpression.matchesBSON,
        BSONValue.isObjectType, hev]
  obtain ⟨out, hap, hel⟩ :=
    apply_array_filter ev cmp checkViable (PullNode.init (.objVal []) col) l
      pathTaken matchedField fromReplication validateForStorage immutablePaths
      indexData logBuilder
  refine ⟨out, hap, ?_⟩
  rw [hel]
  simp only [hmatch]

/-- Witness for C10 at a concrete input: with an evaluator under which the
empty condition matches every document, pulling `{}` from
`[1, {a: 2}, "x"]` removes exactly the document element. -/
theorem pull_c10_empty_object_witness :
    PullNode.init (.objVal []) none = .objectMatcher ⟨[], none⟩
  ∧ ∃ out, PullNode.apply (fun _ _ _ => true) (fun _ _ _ => 1)
        (fun _ _ _ => true) (PullNode.init (.objVal []) none)
        (.arrVal [.intVal 1, .objVal [("a", .intVal 2)], .strVal "x"]) []
        ["a"] "" false false [] none none = Except.ok out
      ∧ out.element = .arrVal
          (([.intVal 1, .objVal [("a", .intVal 2)], .strVal "x"] :
              List BSONValue).filter (fun e => !(e.isObjectType))) :=
  pull_c10_empty_object (fun _ _ _ => true) (fun _ _ _ => 1) (fun _ _ _ => true)
    none [.intVal 1, .objVal [("a", .intVal 2)], .strVal "x"] ["a"] "" false
    false [] none none (fun _ _ => rfl)

end PullSpec
